import Mathlib

/-!
Verification of the scoring core of the mark-it repository.

Shallow embedding of `app/lib/confidence_scorer.py` (criterion-keyword
matching with partial credit, similarity / agreement / geometric confidence,
weighted combination) and of the grading path of `app/lib/visual_marking.py`
(geometric accuracy of a detected shape against an expected shape).

Conventions of the embedding:
* Python floats and ints are embedded as exact rationals (`ℚ`); values that
  the source feeds through `math.sqrt` / `math.dist` / `np.arccos` live in `ℝ`.
* Python text is embedded as `String`; `str.lower` becomes a `Char.toLower`
  map over the character list, and the substring operator `in` becomes
  `List.isInfixOf` over the lowered character lists.
* Code that can raise (`ZeroDivisionError` from `/` with a zero divisor)
  returns `Except PyError _`; the guard sits exactly where the raising
  division sits in the source.
* `float('inf')` (only ever produced for `position_error`) is embedded as
  `none` in an `Option ℝ` field.
-/

namespace MarkIt

/-- `ZeroDivisionError` is the only exception the embedded code can raise. -/
inductive PyError where
  | zeroDivisionError : PyError
deriving DecidableEq

/-- `s.lower()` of the source, as the lowered character list of `s`. -/
def lowerChars (s : String) : List Char := s.toList.map Char.toLower

/-- The source's `keyword.lower() in answer.lower()`: case-insensitive
substring containment. -/
def strIn (needle hay : String) : Bool :=
  decide (List.IsInfix (lowerChars needle) (lowerChars hay))

/-- Python `str.split()` with no argument: split on whitespace runs,
dropping empty pieces.  Result is a list of character lists. -/
def pySplitWs (cs : List Char) : List (List Char) :=
  (cs.splitOnP Char.isWhitespace).filter (fun w => !w.isEmpty)

/-! ## Data model of `confidence_scorer.py` -/

/-- The `Criterion` dataclass (lines 12-19 of `confidence_scorer.py`).
`marks` is an `int` in the source; it is embedded as `ℚ` because the source
multiplies it with float percentages. -/
structure Criterion where
  description : String
  marks : ℚ
  keywords : List String
  partial_credit_keywords : Option (List String)
  tolerance : ℚ
deriving DecidableEq

/-- The dict returned by `_check_criterion_match`. -/
structure MatchResult where
  fully_matched : Bool
  partially_matched : Bool
  match_percentage : ℚ
  partial_score : ℚ
  explanation : String
deriving DecidableEq

/-- One entry of `partial_credit_details` (lines 57-62). -/
structure PartialDetail where
  criterion : String
  matched : Bool
  partial_score : ℚ
  explanation : String
deriving DecidableEq

/-- The `ConfidenceBreakdown` dataclass (lines 21-28). -/
structure ConfidenceBreakdown where
  criteria_matched : ℕ
  total_criteria : ℕ
  confidence_score : ℚ
  partial_credit_details : List PartialDetail
  reasoning : String
deriving DecidableEq

/-- `self.partial_credit_threshold = 0.6` (line 34): the only instance
state of `ConfidenceScorer`, fixed at construction. -/
def partial_credit_threshold : ℚ := 6/10

/-- `_generate_criterion_explanation` (lines 137-156).  Note the source's
quirk: the found/missing lists test keyword presence in the *criterion
description*, not the student answer.  `partial_matches` is received and
unused, as in the source. -/
def _generate_criterion_explanation (criterion : Criterion)
    (keyword_matches total_keywords partial_matches : ℕ) : String :=
  if keyword_matches = total_keywords then
    "All required keywords found: " ++ String.intercalate ", " criterion.keywords
  else if 0 < keyword_matches then
    let found_keywords := criterion.keywords.filter
      (fun kw => strIn kw criterion.description)
    let missing_keywords := criterion.keywords.filter
      (fun kw => !(strIn kw criterion.description))
    "Found " ++ toString keyword_matches ++ "/" ++ toString total_keywords ++
      " keywords. Found: " ++ String.intercalate ", " found_keywords ++
      ". Missing: " ++ String.intercalate ", " missing_keywords
  else
    "No required keywords found. Expected: " ++
      String.intercalate ", " criterion.keywords

/-- `_check_criterion_match` (lines 88-135).  The feedback is lower-cased
(line 96) but never used afterwards, exactly as in the source. -/
def _check_criterion_match (student_answer : String) (criterion : Criterion)
    (llm_feedback : String) : MatchResult :=
  let feedback_lower := lowerChars llm_feedback
  let keyword_matches : ℕ :=
    criterion.keywords.countP (fun kw => strIn kw student_answer)
  let partial_matches : ℕ :=
    match criterion.partial_credit_keywords with
    | some kws => kws.countP (fun kw => strIn kw student_answer)
    | none => 0
  let total_keywords : ℕ := criterion.keywords.length
  let match_percentage : ℚ :=
    if 0 < total_keywords then (keyword_matches : ℚ) / (total_keywords : ℚ) else 0
  let fully_matched : Bool := decide (match_percentage ≥ 1 - criterion.tolerance)
  let partially_matched : Bool :=
    decide (match_percentage ≥ partial_credit_threshold) && !fully_matched
  let partial_score : ℚ :=
    if partially_matched then match_percentage * criterion.marks else 0
  { fully_matched := fully_matched
    partially_matched := partially_matched
    match_percentage := match_percentage
    partial_score := partial_score
    explanation := _generate_criterion_explanation criterion keyword_matches
      total_keywords partial_matches }

/-- `_generate_confidence_reasoning` (lines 158-177): four confidence bands. -/
def _generate_confidence_reasoning (criteria_matched total_criteria : ℕ)
    (partial_credit_details : List PartialDetail) (confidence_score : ℚ) : String :=
  if confidence_score ≥ 9/10 then
    "High confidence: " ++ toString criteria_matched ++ "/" ++
      toString total_criteria ++ " criteria fully met. " ++
      "Strong evidence supports this marking decision."
  else if confidence_score ≥ 7/10 then
    "Good confidence: " ++ toString criteria_matched ++ "/" ++
      toString total_criteria ++ " criteria fully met with " ++
      toString partial_credit_details.length ++ " partial matches. " ++
      "Marking decision is well-supported."
  else if confidence_score ≥ 5/10 then
    "Moderate confidence: " ++ toString criteria_matched ++ "/" ++
      toString total_criteria ++ " criteria met. " ++
      "Some uncertainty exists; consider human review."
  else
    "Low confidence: Only " ++ toString criteria_matched ++ "/" ++
      toString total_criteria ++ " criteria met. " ++
      "High uncertainty; human review recommended."

/-- The body of `calculate_confidence_from_criteria` (lines 36-86) past the
division on line 73: the loop with its `if fully / elif partially` branches
becomes two filters over the mark scheme, and `confidence_score` is
`min(1.0, total_score / total_criteria)`.  Total function; the caller
raises before reaching the division when the scheme is empty. -/
def confidence_breakdown (student_answer : String)
    (mark_scheme : List Criterion) (llm_feedback : String) : ConfidenceBreakdown :=
  let matched_criteria := mark_scheme.filter
    (fun c => (_check_criterion_match student_answer c llm_feedback).fully_matched)
  let partial_credit_details := (mark_scheme.filter (fun c =>
      let r := _check_criterion_match student_answer c llm_feedback
      !r.fully_matched && r.partially_matched)).map (fun c =>
    let r := _check_criterion_match student_answer c llm_feedback
    { criterion := c.description
      matched := true
      partial_score := r.partial_score
      explanation := r.explanation })
  let total_criteria := mark_scheme.length
  let criteria_matched := matched_criteria.length
  let partial_credit_score := (partial_credit_details.map (·.partial_score)).sum
  let total_score := (criteria_matched : ℚ) + partial_credit_score
  let confidence_score := min 1 (total_score / (total_criteria : ℚ))
  { criteria_matched := criteria_matched
    total_criteria := total_criteria
    confidence_score := confidence_score
    partial_credit_details := partial_credit_details
    reasoning := _generate_confidence_reasoning criteria_matched total_criteria
      partial_credit_details confidence_score }

/-- `calculate_confidence_from_criteria` (lines 36-86).  When the mark
scheme is empty, `total_score / total_criteria` on line 73 is a float
division by zero, which raises `ZeroDivisionError` in Python; the guard
returning the error stands for that raise. -/
def calculate_confidence_from_criteria (student_answer : String)
    (mark_scheme : List Criterion) (llm_feedback : String) :
    Except PyError ConfidenceBreakdown :=
  if mark_scheme.length = 0 then .error .zeroDivisionError
  else .ok (confidence_breakdown student_answer mark_scheme llm_feedback)

/-- The value `calculate_embedding_confidence` (lines 179-219) computes when
it does not raise.  All arithmetic is rational. -/
def embedding_confidence_val (student_answer expected_answer : String)
    (embedding_similarity : ℚ) : ℚ :=
  let base_confidence := embedding_similarity
  let student_length : ℕ := (pySplitWs student_answer.toList).length
  let expected_length : ℕ := (pySplitWs expected_answer.toList).length
  let length_factor : ℚ :=
    if 0 < expected_length then
      min ((student_length : ℚ) / (expected_length : ℚ))
          ((expected_length : ℚ) / (student_length : ℚ)) * (2/10)
    else 0
  let expected_words := (pySplitWs (lowerChars expected_answer)).toFinset
  let student_words := (pySplitWs (lowerChars student_answer)).toFinset
  let keyword_factor : ℚ :=
    if expected_words.Nonempty then
      ((expected_words ∩ student_words).card : ℚ) / (expected_words.card : ℚ) * (3/10)
    else 0
  let final_confidence := base_confidence * (5/10) + length_factor + keyword_factor
  min 1 (max 0 final_confidence)

/-- `calculate_embedding_confidence` (lines 179-219).  When the expected
answer has at least one word and the student answer has none, line 199
evaluates `expected_length / student_length` with a zero divisor and raises
`ZeroDivisionError` (the source only guards `expected_length`). -/
def calculate_embedding_confidence (student_answer expected_answer : String)
    (embedding_similarity : ℚ) : Except PyError ℚ :=
  if 0 < (pySplitWs expected_answer.toList).length ∧
      (pySplitWs student_answer.toList).length = 0 then
    .error .zeroDivisionError
  else
    .ok (embedding_confidence_val student_answer expected_answer embedding_similarity)

/-- One entry of `marking_results` as consumed by
`calculate_model_agreement_confidence` (both keys present; the source's
`.get` defaults only fire for missing keys). -/
structure MarkingResult where
  marks_awarded : ℚ
  total_marks : ℚ
deriving DecidableEq

/-- `calculate_model_agreement_confidence` (lines 221-253).  Percentages,
mean and variance are exact rationals; `math.sqrt` maps into `ℝ`. -/
noncomputable def calculate_model_agreement_confidence
    (marking_results : List MarkingResult) : ℝ :=
  if marking_results.isEmpty then 0
  else if ((marking_results.filter (fun r => 0 < r.total_marks)).map
      (fun r => r.marks_awarded / r.total_marks)).isEmpty then 0
  else
  let percentage_scores : List ℚ :=
    (marking_results.filter (fun r => 0 < r.total_marks)).map
      (fun r => r.marks_awarded / r.total_marks)
  let mean_score : ℚ := percentage_scores.sum / (percentage_scores.length : ℚ)
  let variance : ℚ :=
    ((percentage_scores.map (fun s => (s - mean_score) ^ 2)).sum) /
      (percentage_scores.length : ℚ)
  let std_dev : ℝ := Real.sqrt (variance : ℝ)
  min 1 (max 0 (1 - std_dev * 2))

/-- The dict argument of `calculate_geometric_confidence`: three optional
keys, read with defaults `1.0 / 0.0 / 0.0`. -/
structure GeoMeasurements where
  scale_factor : Option ℚ
  rotation_angle : Option ℚ
  position_error : Option ℚ
deriving DecidableEq

/-- `calculate_geometric_confidence` (lines 255-284); `none` is the empty
dict (`if not geometric_accuracy`). -/
def calculate_geometric_confidence (geometric_accuracy : Option GeoMeasurements) : ℚ :=
  match geometric_accuracy with
  | none => 0
  | some g =>
    let scale_factor := g.scale_factor.getD 1
    let rotation_angle := g.rotation_angle.getD 0
    let position_error := g.position_error.getD 0
    let scale_confidence := max 0 (1 - |scale_factor - 1| / (2/10))
    let rotation_confidence := max 0 (1 - |rotation_angle| / 10)
    let position_confidence := max 0 (1 - position_error / 2)
    min 1 (scale_confidence * (3/10) + rotation_confidence * (3/10) +
      position_confidence * (4/10))

/-- `combine_confidence_scores` (lines 286-311).  `none` is the omitted
`weights=None` argument; `zip` truncates to the shorter list as in Python. -/
def combine_confidence_scores (confidence_scores : List ℚ)
    (weights : Option (List ℚ)) : ℚ :=
  if confidence_scores.isEmpty then 0 else
  let ws : List ℚ :=
    match weights with
    | none => List.replicate confidence_scores.length
        (1 / (confidence_scores.length : ℚ))
    | some w => w
  let total_weight := ws.sum
  let normalized_weights :=
    if 0 < total_weight then ws.map (fun w => w / total_weight)
    else List.replicate ws.length (1 / (ws.length : ℚ))
  let combined_confidence :=
    ((confidence_scores.zip normalized_weights).map (fun p => p.1 * p.2)).sum
  min 1 (max 0 combined_confidence)

/-! ## Data model of `visual_marking.py` (grading path) -/

/-- `math.dist` on 2-D points: Euclidean distance. -/
noncomputable def pointDist (p q : ℝ × ℝ) : ℝ :=
  Real.sqrt ((p.1 - q.1) ^ 2 + (p.2 - q.2) ^ 2)

/-- `np.mean` of a list (the source never feeds it an empty list on the
paths embedded here; Lean's `0 / 0 = 0` stands in for NumPy's `nan`). -/
noncomputable def listMean (l : List ℝ) : ℝ := l.sum / (l.length : ℝ)

/-- The consecutive-vertex pairs `(v[i], v[i+1])` for `i < len(v) - 1`. -/
def consecPairs {α : Type} (l : List α) : List (α × α) := l.zip l.tail

/-- Lengths of the consecutive-vertex edges of a vertex list: the
`dist(v[i], v[i+1])` values of the loops in `_calculate_scale_factor` and
`_calculate_position_error`. -/
noncomputable def consecDists (l : List (ℝ × ℝ)) : List ℝ :=
  (consecPairs l).map (fun p => pointDist p.1 p.2)

/-- The `DetectedShape` dataclass (lines 13-19 of `visual_marking.py`). -/
structure DetectedShape where
  shape_type : String
  vertices : List (ℝ × ℝ)
  confidence : ℝ
  bounding_box : ℤ × ℤ × ℤ × ℤ

/-- The `tolerance` sub-dict of an expected answer: three optional keys,
read with defaults `0.1 / 5.0 / 1.0` in `_calculate_overall_accuracy`. -/
structure ShapeTolerance where
  scale : Option ℝ
  rotation : Option ℝ
  position : Option ℝ

/-- The expected-answer dict as read by `grade_geometric_accuracy`:
`.get('shape_type')` may be absent (`none`), `.get('vertices', [])` and
`.get('tolerance', {})` default to empty. -/
structure ExpectedShape where
  shape_type : Option String
  vertices : List (ℝ × ℝ)
  tolerance : ShapeTolerance

/-- The `GeometricAccuracy` dataclass (lines 21-27).  `position_error` is
`none` where the source stores `float('inf')`. -/
structure GeometricAccuracy where
  scale_factor : ℝ
  rotation_angle : ℝ
  position_error : Option ℝ
  overall_accuracy : ℝ

/-- The `VisualMarker` instance state (lines 32-34). -/
structure VisualMarker where
  grid_spacing : ℝ
  tolerance : ℝ

/-- `_pixels_to_grid` (lines 257-261). -/
noncomputable def VisualMarker.pixels_to_grid (m : VisualMarker)
    (vertices : List (ℝ × ℝ)) : List (ℝ × ℝ) :=
  vertices.map (fun v => (v.1 / m.grid_spacing, v.2 / m.grid_spacing))

/-- `_calculate_scale_factor` (lines 263-286).  The source's loop over
`range(len(detected) - 1)` indexes both lists in step; `grade` only calls
it with lists of equal length, where the zip of each list with its own tail
is that loop exactly.  Note the two distance lists are filtered for
positive entries *independently* before averaging: the result is a ratio
of means, not a mean of ratios. -/
noncomputable def _calculate_scale_factor
    (detected expected : List (ℝ × ℝ)) : ℝ :=
  if detected.length < 2 ∨ expected.length < 2 then 1 else
  let detected_distances := consecDists detected
  let expected_distances := consecDists expected
  if expected_distances ≠ [] ∧ ∃ d ∈ expected_distances, 0 < d then
    let avg_detected := listMean (detected_distances.filter (fun d => 0 < d))
    let avg_expected := listMean (expected_distances.filter (fun d => 0 < d))
    if 0 < avg_expected then avg_detected / avg_expected else 1
  else 1

/-- `v.1 * w.1 + v.2 * w.2`: `np.dot` on 2-D vectors. -/
def dot2 (v w : ℝ × ℝ) : ℝ := v.1 * w.1 + v.2 * w.2

/-- `np.linalg.norm` on a 2-D vector. -/
noncomputable def norm2 (v : ℝ × ℝ) : ℝ := Real.sqrt (v.1 ^ 2 + v.2 ^ 2)

/-- `_calculate_rotation_angle` (lines 288-314): mean arc-cosine angle (in
degrees) between the vectors from the first vertex to each later vertex,
detected vs. expected.  `any(d_vec)` of the source is Python tuple
truthiness: the vector is not `(0, 0)`.  As with the scale factor, the
source's index-parallel loop is embedded as a zip (equal lengths at every
call site). -/
noncomputable def _calculate_rotation_angle
    (detected expected : List (ℝ × ℝ)) : ℝ :=
  if detected.length < 2 ∨ expected.length < 2 then 0 else
  let d0 := detected.headD (0, 0)
  let e0 := expected.headD (0, 0)
  let vector_pairs := ((detected.drop 1).zip (expected.drop 1)).map
    (fun p => ((p.1.1 - d0.1, p.1.2 - d0.2), (p.2.1 - e0.1, p.2.2 - e0.2)))
  let angles := (vector_pairs.filter
      (fun p => p.1 ≠ ((0 : ℝ), (0 : ℝ)) ∧ p.2 ≠ ((0 : ℝ), (0 : ℝ)))).map
    (fun p =>
      let cos_angle := min 1 (max (-1) (dot2 p.1 p.2 / (norm2 p.1 * norm2 p.2)))
      Real.arccos cos_angle * 180 / Real.pi)
  if angles ≠ [] then listMean angles else 0

/-- `_calculate_position_error` (lines 316-328): mean distance between
corresponding vertices; `none` (`float('inf')`) when the lengths differ or
the lists are empty. -/
noncomputable def _calculate_position_error
    (detected expected : List (ℝ × ℝ)) : Option ℝ :=
  if detected.length ≠ expected.length then none
  else
    let errors := (detected.zip expected).map (fun p => pointDist p.1 p.2)
    if errors ≠ [] then some (listMean errors) else none

/-- `_calculate_overall_accuracy` (lines 330-357).  A `none`
(`float('inf')`) position error gives a position score of `0`, matching
the float arithmetic `max(0, 1 - inf / tol) = 0` for the positive default
tolerances. -/
noncomputable def _calculate_overall_accuracy (scale_factor rotation_angle : ℝ)
    (position_error : Option ℝ) (expected_shape : ExpectedShape) : ℝ :=
  let scale_tolerance := expected_shape.tolerance.scale.getD (1/10)
  let rotation_tolerance := expected_shape.tolerance.rotation.getD 5
  let position_tolerance := expected_shape.tolerance.position.getD 1
  let scale_score := max 0 (1 - |scale_factor - 1| / scale_tolerance)
  let rotation_score := max 0 (1 - |rotation_angle| / rotation_tolerance)
  let position_score :=
    match position_error with
    | none => 0
    | some e => max 0 (1 - e / position_tolerance)
  max 0 (min 1 (scale_score * (3/10) + rotation_score * (3/10) +
    position_score * (4/10)))

/-- `grade_geometric_accuracy` (lines 210-255): the sentinel
`{0, 0, inf, 0}` on a shape-type mismatch, an empty expected vertex list or
a vertex-count mismatch; otherwise the four measurements on the
grid-converted vertices. -/
noncomputable def grade_geometric_accuracy (m : VisualMarker)
    (detected_shape : DetectedShape) (expected_shape : ExpectedShape) :
    GeometricAccuracy :=
  if some detected_shape.shape_type ≠ expected_shape.shape_type then
    { scale_factor := 0, rotation_angle := 0, position_error := none,
      overall_accuracy := 0 }
  else if expected_shape.vertices = [] ∨
      (m.pixels_to_grid detected_shape.vertices).length ≠ expected_shape.vertices.length then
    { scale_factor := 0, rotation_angle := 0, position_error := none,
      overall_accuracy := 0 }
  else
    let grid_vertices := m.pixels_to_grid detected_shape.vertices
    let expected_vertices := expected_shape.vertices
    let scale_factor := _calculate_scale_factor grid_vertices expected_vertices
    let rotation_angle := _calculate_rotation_angle grid_vertices expected_vertices
    let position_error := _calculate_position_error grid_vertices expected_vertices
    let overall_accuracy := _calculate_overall_accuracy scale_factor
      rotation_angle position_error expected_shape
    { scale_factor := scale_factor, rotation_angle := rotation_angle,
      position_error := position_error, overall_accuracy := overall_accuracy }

/-! ## Definitions taken from the claims' words (for comparison with the
source-derived definitions above) -/

/-- Claim side: the number of a criterion's keywords that appear
case-insensitively as substrings of the answer. -/
def matchedKeywordCount (answer : String) (c : Criterion) : ℕ :=
  c.keywords.countP (fun kw => strIn kw answer)

/-- Claim side (C2): the count of fully matched criteria. -/
def fullyMatchedCount (answer : String) (scheme : List Criterion)
    (feedback : String) : ℕ :=
  (scheme.filter (fun c => (_check_criterion_match answer c feedback).fully_matched)).length

/-- Claim side (C2): the sum of `partial_score` over the partially matched
criteria. -/
def partialScoreSum (answer : String) (scheme : List Criterion)
    (feedback : String) : ℚ :=
  ((scheme.filter (fun c => (_check_criterion_match answer c feedback).partially_matched)).map
    (fun c => (_check_criterion_match answer c feedback).partial_score)).sum

/-- Claim side (C5): the percentages of the valid entries. -/
def validPercentages (marking_results : List MarkingResult) : List ℚ :=
  (marking_results.filter (fun r => 0 < r.total_marks)).map
    (fun r => r.marks_awarded / r.total_marks)

/-- Claim side (C5): population variance of a list of rationals. -/
def popVariance (l : List ℚ) : ℚ :=
  ((l.map (fun s => (s - l.sum / (l.length : ℚ)) ^ 2)).sum) / (l.length : ℚ)

/-- Claim side (C6), following the claim's words literally: weights are
renormalized to sum to 1 before the weighted average whenever their sum is
nonzero, and the equal-weight fallback fires only when the sum is zero. -/
def combineSpecC6 (confidence_scores : List ℚ) (weights : Option (List ℚ)) : ℚ :=
  if confidence_scores.isEmpty then 0 else
  let ws : List ℚ :=
    match weights with
    | none => List.replicate confidence_scores.length
        (1 / (confidence_scores.length : ℚ))
    | some w => w
  let normalized_weights :=
    if ws.sum = 0 then List.replicate ws.length (1 / (ws.length : ℚ))
    else ws.map (fun w => w / ws.sum)
  min 1 (max 0 (((confidence_scores.zip normalized_weights).map
    (fun p => p.1 * p.2)).sum))

/-- Claim side (C8), following the claim's words: the mean over
corresponding consecutive-vertex edge pairs of the per-edge ratio
detected / expected, skipping zero-length edges. -/
noncomputable def meanEdgeRatios (detected expected : List (ℝ × ℝ)) : ℝ :=
  listMean ((((consecDists detected).zip (consecDists expected)).filter
    (fun p => 0 < p.1 ∧ 0 < p.2)).map (fun p => p.1 / p.2))

/-- Claim side (C8 amended): the ratio of the mean positive detected edge
length to the mean positive expected edge length, each mean over that
shape's own nonzero-length consecutive edges. -/
noncomputable def ratioOfMeanEdges (detected expected : List (ℝ × ℝ)) : ℝ :=
  listMean ((consecDists detected).filter (fun d => 0 < d)) /
    listMean ((consecDists expected).filter (fun d => 0 < d))

/-! ## Helper lemmas -/

/-- Field characterization: `match_percentage` of `_check_criterion_match`. -/
theorem check_match_percentage (a : String) (c : Criterion) (f : String) :
    (_check_criterion_match a c f).match_percentage =
      if 0 < c.keywords.length then
        (matchedKeywordCount a c : ℚ) / (c.keywords.length : ℚ)
      else 0 := rfl

/-- Field characterization: `fully_matched` of `_check_criterion_match`. -/
theorem check_fully_matched (a : String) (c : Criterion) (f : String) :
    (_check_criterion_match a c f).fully_matched =
      decide ((_check_criterion_match a c f).match_percentage ≥ 1 - c.tolerance) := rfl

/-- Field characterization: `partially_matched` of `_check_criterion_match`. -/
theorem check_partially_matched (a : String) (c : Criterion) (f : String) :
    (_check_criterion_match a c f).partially_matched =
      (decide ((_check_criterion_match a c f).match_percentage ≥ partial_credit_threshold)
        && !(_check_criterion_match a c f).fully_matched) := rfl

/-- Field characterization: `partial_score` of `_check_criterion_match`. -/
theorem check_partial_score (a : String) (c : Criterion) (f : String) :
    (_check_criterion_match a c f).partial_score =
      if (_check_criterion_match a c f).partially_matched then
        (_check_criterion_match a c f).match_percentage * c.marks
      else 0 := rfl

/-- The match percentage is never negative. -/
theorem check_match_percentage_nonneg (a : String) (c : Criterion) (f : String) :
    0 ≤ (_check_criterion_match a c f).match_percentage := by
  rw [check_match_percentage]
  split
  · positivity
  · exact le_refl 0

/-- A partially matched criterion is not fully matched. -/
theorem partially_not_fully (a : String) (c : Criterion) (f : String)
    (h : (_check_criterion_match a c f).partially_matched = true) :
    (_check_criterion_match a c f).fully_matched = false := by
  rw [check_partially_matched] at h
  rcases Bool.and_eq_true _ _ |>.mp h with ⟨-, h2⟩
  simpa using h2

/-- Clamp bounds, `ℚ` form `min 1 (max 0 x)`. -/
theorem clamp01_mem (x : ℚ) : 0 ≤ min 1 (max 0 x) ∧ min 1 (max 0 x) ≤ 1 :=
  ⟨le_min (by norm_num) (le_max_left 0 x), min_le_left 1 _⟩

/-- Clamp bounds, `ℝ` form `min 1 (max 0 x)`. -/
theorem clamp01_mem_real (x : ℝ) : 0 ≤ min 1 (max 0 x) ∧ min 1 (max 0 x) ≤ 1 :=
  ⟨le_min (by norm_num) (le_max_left 0 x), min_le_left 1 _⟩

/-- Clamp bounds, `ℝ` form `max 0 (min 1 x)`. -/
theorem clamp01_mem_real' (x : ℝ) : 0 ≤ max 0 (min 1 x) ∧ max 0 (min 1 x) ≤ 1 :=
  ⟨le_max_left 0 _, max_le (by norm_num) (min_le_left 1 x)⟩

/-! ## Claims -/

/-- C1: for every answer and criterion, `match_percentage` is the number of
keywords appearing case-insensitively as substrings of the answer divided by
the keyword count (`0` with no keywords); the criterion is fully matched iff
`match_percentage ≥ 1 - tolerance`, partially matched iff it is not fully
matched and `match_percentage ≥ 0.6`, and `partial_score` is
`match_percentage * marks` when partially matched and `0` otherwise. -/
theorem C1_criterion_match_spec (a : String) (c : Criterion) (f : String) :
    (c.keywords = [] → (_check_criterion_match a c f).match_percentage = 0) ∧
    (c.keywords ≠ [] →
      (_check_criterion_match a c f).match_percentage =
        (matchedKeywordCount a c : ℚ) / (c.keywords.length : ℚ)) ∧
    ((_check_criterion_match a c f).fully_matched = true ↔
      1 - c.tolerance ≤ (_check_criterion_match a c f).match_percentage) ∧
    ((_check_criterion_match a c f).partially_matched = true ↔
      ((_check_criterion_match a c f).fully_matched = false ∧
        (6/10 : ℚ) ≤ (_check_criterion_match a c f).match_percentage)) ∧
    ((_check_criterion_match a c f).partial_score =
      if (_check_criterion_match a c f).partially_matched = true then
        (_check_criterion_match a c f).match_percentage * c.marks
      else 0) := by
  refine ⟨?_, ?_, ?_, ?_, check_partial_score a c f⟩
  · intro h
    rw [check_match_percentage, if_neg]
    simp [h]
  · intro h
    rw [check_match_percentage, if_pos (List.length_pos.mpr h)]
  · rw [check_fully_matched]
    simp [ge_iff_le]
  · rw [check_partially_matched]
    simp only [Bool.and_eq_true, decide_eq_true_eq, Bool.not_eq_true',
      ge_iff_le, partial_credit_threshold]
    tauto

/-- Witness for C1 at the spec's worked example: the four-keyword criterion
against an answer containing three of the keywords. -/
theorem C1_criterion_match_spec_witness :
    ((["quadratic", "formula", "solve", "equation"] : List String) ≠ []) ∧
    (_check_criterion_match "I used the quadratic formula to solve it"
        ⟨"method", 2, ["quadratic", "formula", "solve", "equation"], none, 1/10⟩
        "fb").match_percentage =
      (matchedKeywordCount "I used the quadratic formula to solve it"
        ⟨"method", 2, ["quadratic", "formula", "solve", "equation"], none, 1/10⟩ : ℚ) / 4 :=
  ⟨by decide,
    (C1_criterion_match_spec "I used the quadratic formula to solve it"
      ⟨"method", 2, ["quadratic", "formula", "solve", "equation"], none, 1/10⟩
      "fb").2.1 (by decide)⟩

/-- C9 counterexample: with a negative tolerance (`-1`) the claim fails:
every keyword of the criterion appears in the answer, yet the criterion is
not fully matched (`1 ≥ 1 - (-1) = 2` is false). -/
theorem C9_counterexample :
    (∀ kw ∈ (["a"] : List String), strIn kw "a" = true) ∧
    (_check_criterion_match "a" ⟨"d", 1, ["a"], none, -1⟩ "").fully_matched = false := by
  refine ⟨by decide, ?_⟩
  have hmp : (_check_criterion_match "a" ⟨"d", 1, ["a"], none, -1⟩ "").match_percentage = 1 := by
    rw [check_match_percentage]
    have h : matchedKeywordCount "a" ⟨"d", 1, ["a"], none, -1⟩ = 1 := by decide
    simp [h]
  rw [check_fully_matched, hmp]
  simp only [decide_eq_false_iff_not, ge_iff_le]
  norm_num

/-- C9 amended: an answer containing every keyword of a criterion with a
non-empty keyword list is fully matched for every tolerance `≥ 0`
(including the `tolerance = 0` edge case); for negative tolerance it is
not. -/
theorem C9_all_keywords_fully_matched (a : String) (c : Criterion) (f : String)
    (hne : c.keywords ≠ [])
    (hall : ∀ kw ∈ c.keywords, strIn kw a = true)
    (htol : 0 ≤ c.tolerance) :
    (_check_criterion_match a c f).fully_matched = true := by
  have hcnt : matchedKeywordCount a c = c.keywords.length :=
    List.countP_eq_length.mpr hall
  have hlen : (0 : ℚ) < (c.keywords.length : ℚ) := by
    exact_mod_cast List.length_pos.mpr hne
  have hmp : (_check_criterion_match a c f).match_percentage = 1 := by
    rw [check_match_percentage, if_pos (List.length_pos.mpr hne), hcnt]
    exact div_self (ne_of_gt hlen)
  rw [check_fully_matched, hmp]
  simp only [decide_eq_true_eq, ge_iff_le]
  linarith

/-- Witness for the amended C9 at tolerance `0`. -/
theorem C9_all_keywords_fully_matched_witness :
    (_check_criterion_match "a" ⟨"d", 1, ["a"], none, 0⟩ "").fully_matched = true :=
  C9_all_keywords_fully_matched "a" ⟨"d", 1, ["a"], none, 0⟩ ""
    (by decide) (by decide) le_rfl

/-- Field characterization: `confidence_score` of `confidence_breakdown`,
exactly as the source computes it. -/
theorem breakdown_confidence_score (a : String) (scheme : List Criterion) (f : String) :
    (confidence_breakdown a scheme f).confidence_score =
      min 1 ((((scheme.filter (fun c =>
          (_check_criterion_match a c f).fully_matched)).length : ℚ) +
        (((scheme.filter (fun c =>
            !(_check_criterion_match a c f).fully_matched &&
              (_check_criterion_match a c f).partially_matched)).map (fun c =>
          ({ criterion := c.description, matched := true,
             partial_score := (_check_criterion_match a c f).partial_score,
             explanation := (_check_criterion_match a c f).explanation } :
            PartialDetail))).map (·.partial_score)).sum) /
        (scheme.length : ℚ)) := rfl

/-- The `partial_score` sum of the source's detail list is the claim-side
`partialScoreSum`. -/
theorem breakdown_partial_sum (a : String) (scheme : List Criterion) (f : String) :
    (((scheme.filter (fun c =>
        !(_check_criterion_match a c f).fully_matched &&
          (_check_criterion_match a c f).partially_matched)).map (fun c =>
      ({ criterion := c.description, matched := true,
         partial_score := (_check_criterion_match a c f).partial_score,
         explanation := (_check_criterion_match a c f).explanation } :
        PartialDetail))).map (·.partial_score)).sum =
      partialScoreSum a scheme f := by
  rw [List.map_map]
  unfold partialScoreSum
  congr 1
  apply congrArg
  apply List.filter_congr
  intro c _
  cases hp : (_check_criterion_match a c f).partially_matched
  · simp
  · simp [partially_not_fully a c f hp]

/-- C2: an empty mark scheme makes `calculate_confidence_from_criteria`
fail with the division-by-zero error instead of returning a breakdown; a
non-empty scheme returns a breakdown whose `confidence_score` is
`min(1, (fully matched count + partial score sum) / total criteria)`. -/
theorem C2_empty_scheme_fails (a : String) (scheme : List Criterion) (f : String) :
    (scheme = [] →
      calculate_confidence_from_criteria a scheme f = .error .zeroDivisionError) ∧
    (scheme ≠ [] →
      calculate_confidence_from_criteria a scheme f =
        .ok (confidence_breakdown a scheme f) ∧
      (confidence_breakdown a scheme f).confidence_score =
        min 1 (((fullyMatchedCount a scheme f : ℚ) + partialScoreSum a scheme f) /
          (scheme.length : ℚ))) := by
  constructor
  · intro h
    subst h
    rfl
  · intro h
    constructor
    · unfold calculate_confidence_from_criteria
      rw [if_neg (fun hlen => h (List.length_eq_zero.mp hlen))]
    · rw [breakdown_confidence_score, breakdown_partial_sum]
      rfl

/-- Witness for C2 on a one-criterion mark scheme. -/
theorem C2_empty_scheme_fails_witness :
    calculate_confidence_from_criteria "quadratic" [⟨"m", 2, ["quadratic"], none, 1/10⟩] "" =
      .ok (confidence_breakdown "quadratic" [⟨"m", 2, ["quadratic"], none, 1/10⟩] "") ∧
    (confidence_breakdown "quadratic" [⟨"m", 2, ["quadratic"], none, 1/10⟩] "").confidence_score =
      min 1 (((fullyMatchedCount "quadratic" [⟨"m", 2, ["quadratic"], none, 1/10⟩] "" : ℚ) +
        partialScoreSum "quadratic" [⟨"m", 2, ["quadratic"], none, 1/10⟩] "") / 1) :=
  (C2_empty_scheme_fails "quadratic" [⟨"m", 2, ["quadratic"], none, 1/10⟩] "").2
    (by simp)

/-- A criterion with nonnegative marks has a nonnegative partial score. -/
theorem check_partial_score_nonneg (a : String) (c : Criterion) (f : String)
    (hm : 0 ≤ c.marks) : 0 ≤ (_check_criterion_match a c f).partial_score := by
  rw [check_partial_score]
  split
  · exact mul_nonneg (check_match_percentage_nonneg a c f) hm
  · exact le_refl 0

/-- The partial-score sum over a mark scheme with nonnegative marks is
nonnegative. -/
theorem partialScoreSum_nonneg (a : String) (scheme : List Criterion) (f : String)
    (hm : ∀ c ∈ scheme, 0 ≤ c.marks) : 0 ≤ partialScoreSum a scheme f := by
  apply List.sum_nonneg
  intro x hx
  obtain ⟨c, hc, rfl⟩ := List.mem_map.mp hx
  exact check_partial_score_nonneg a c f (hm c (List.mem_of_mem_filter hc))

/-- `min 1 x` bounds for nonnegative `x`. -/
theorem min_one_mem (x : ℚ) (hx : 0 ≤ x) : 0 ≤ min 1 x ∧ min 1 x ≤ 1 :=
  ⟨le_min (by norm_num) hx, min_le_left 1 x⟩

/-- The criteria confidence score of a non-empty mark scheme with
nonnegative marks lies in `[0, 1]`. -/
theorem breakdown_score_bounds (a : String) (scheme : List Criterion) (f : String)
    (hne : scheme ≠ []) (hm : ∀ c ∈ scheme, 0 ≤ c.marks) :
    0 ≤ (confidence_breakdown a scheme f).confidence_score ∧
      (confidence_breakdown a scheme f).confidence_score ≤ 1 := by
  rw [breakdown_confidence_score, breakdown_partial_sum]
  apply min_one_mem
  apply div_nonneg
  · have h1 : (0 : ℚ) ≤ ((scheme.filter (fun c =>
        (_check_criterion_match a c f).fully_matched)).length : ℚ) := by positivity
    linarith [partialScoreSum_nonneg a scheme f hm]
  · positivity

/-- `calculate_geometric_confidence` on a non-empty measurement dict. -/
theorem geometric_confidence_some (g : GeoMeasurements) :
    calculate_geometric_confidence (some g) =
      min 1 ((max 0 (1 - |g.scale_factor.getD 1 - 1| / (2/10))) * (3/10) +
        (max 0 (1 - |g.rotation_angle.getD 0| / 10)) * (3/10) +
        (max 0 (1 - g.position_error.getD 0 / 2)) * (4/10)) := rfl

/-- C3: every confidence or accuracy value the scoring core returns lies in
`[0, 1]`: the criteria confidence of a non-empty (valid, nonnegative-marks)
mark scheme, the embedding confidence, the model-agreement confidence, the
geometric confidence, the combined confidence, and the `overall_accuracy`
of `grade_geometric_accuracy`. -/
theorem C3_all_confidences_clamped :
    (∀ (a : String) (scheme : List Criterion) (f : String) (b : ConfidenceBreakdown),
      scheme ≠ [] → (∀ c ∈ scheme, 0 ≤ c.marks) →
      calculate_confidence_from_criteria a scheme f = .ok b →
      0 ≤ b.confidence_score ∧ b.confidence_score ≤ 1) ∧
    (∀ (s e : String) (sim r : ℚ),
      calculate_embedding_confidence s e sim = .ok r → 0 ≤ r ∧ r ≤ 1) ∧
    (∀ l : List MarkingResult,
      0 ≤ calculate_model_agreement_confidence l ∧
        calculate_model_agreement_confidence l ≤ 1) ∧
    (∀ g : Option GeoMeasurements,
      0 ≤ calculate_geometric_confidence g ∧ calculate_geometric_confidence g ≤ 1) ∧
    (∀ (scores : List ℚ) (ws : Option (List ℚ)),
      0 ≤ combine_confidence_scores scores ws ∧
        combine_confidence_scores scores ws ≤ 1) ∧
    (∀ (m : VisualMarker) (d : DetectedShape) (e : ExpectedShape),
      0 ≤ (grade_geometric_accuracy m d e).overall_accuracy ∧
        (grade_geometric_accuracy m d e).overall_accuracy ≤ 1) := by
  refine ⟨?_, ?_, ?_, ?_, ?_, ?_⟩
  · intro a scheme f b hne hm hok
    unfold calculate_confidence_from_criteria at hok
    rw [if_neg (fun hlen => hne (List.length_eq_zero.mp hlen))] at hok
    cases hok
    exact breakdown_score_bounds a scheme f hne hm
  · intro s e sim r hok
    unfold calculate_embedding_confidence at hok
    split at hok
    · exact absurd hok (by simp)
    · cases hok
      exact clamp01_mem _
  · intro l
    unfold calculate_model_agreement_confidence
    split
    · norm_num
    · split
      · norm_num
      · exact clamp01_mem_real _
  · intro g
    match g with
    | none => constructor <;> norm_num [calculate_geometric_confidence]
    | some g =>
      rw [geometric_confidence_some]
      apply min_one_mem
      have h1 : (0 : ℚ) ≤ max 0 (1 - |g.scale_factor.getD 1 - 1| / (2/10)) :=
        le_max_left 0 _
      have h2 : (0 : ℚ) ≤ max 0 (1 - |g.rotation_angle.getD 0| / 10) :=
        le_max_left 0 _
      have h3 : (0 : ℚ) ≤ max 0 (1 - g.position_error.getD 0 / 2) :=
        le_max_left 0 _
      nlinarith
  · intro scores ws
    unfold combine_confidence_scores
    split
    · norm_num
    · exact clamp01_mem _
  · intro m d e
    unfold grade_geometric_accuracy
    split
    · constructor <;> norm_num
    · split
      · constructor <;> norm_num
      · exact clamp01_mem_real' _

/-- Witness for C3 at concrete inputs for each of the six functions. -/
theorem C3_all_confidences_clamped_witness :
    (0 ≤ (confidence_breakdown "quadratic" [⟨"m", 2, ["quadratic"], none, 1/10⟩] "").confidence_score ∧
      (confidence_breakdown "quadratic" [⟨"m", 2, ["quadratic"], none, 1/10⟩] "").confidence_score ≤ 1) ∧
    (0 ≤ embedding_confidence_val "a" "a" 0 ∧ embedding_confidence_val "a" "a" 0 ≤ 1) ∧
    (0 ≤ calculate_model_agreement_confidence [⟨1, 1⟩] ∧
      calculate_model_agreement_confidence [⟨1, 1⟩] ≤ 1) ∧
    (0 ≤ calculate_geometric_confidence none ∧ calculate_geometric_confidence none ≤ 1) ∧
    (0 ≤ combine_confidence_scores [] none ∧ combine_confidence_scores [] none ≤ 1) ∧
    (0 ≤ (grade_geometric_accuracy ⟨1, 1/10⟩ ⟨"triangle", [], 0, (0, 0, 0, 0)⟩
        ⟨some "rectangle", [], ⟨none, none, none⟩⟩).overall_accuracy ∧
      (grade_geometric_accuracy ⟨1, 1/10⟩ ⟨"triangle", [], 0, (0, 0, 0, 0)⟩
        ⟨some "rectangle", [], ⟨none, none, none⟩⟩).overall_accuracy ≤ 1) :=
  ⟨C3_all_confidences_clamped.1 "quadratic" [⟨"m", 2, ["quadratic"], none, 1/10⟩] "" _
      (by simp) (by intro c hc; rw [List.mem_singleton] at hc; subst hc; norm_num) rfl,
    C3_all_confidences_clamped.2.1 "a" "a" 0 _ rfl,
    C3_all_confidences_clamped.2.2.1 [⟨1, 1⟩],
    C3_all_confidences_clamped.2.2.2.1 none,
    C3_all_confidences_clamped.2.2.2.2.1 [] none,
    C3_all_confidences_clamped.2.2.2.2.2 ⟨1, 1/10⟩ ⟨"triangle", [], 0, (0, 0, 0, 0)⟩
      ⟨some "rectangle", [], ⟨none, none, none⟩⟩⟩

/-- C4: a shape-type mismatch, a vertex-count mismatch or an empty expected
vertex list makes `grade_geometric_accuracy` return exactly the sentinel
`{scale_factor = 0, rotation_angle = 0, position_error = ∞, overall_accuracy = 0}`. -/
theorem C4_incomparable_sentinel (m : VisualMarker) (d : DetectedShape)
    (e : ExpectedShape)
    (h : some d.shape_type ≠ e.shape_type ∨
      d.vertices.length ≠ e.vertices.length ∨ e.vertices = []) :
    grade_geometric_accuracy m d e =
      { scale_factor := 0, rotation_angle := 0, position_error := none,
        overall_accuracy := 0 } := by
  unfold grade_geometric_accuracy
  by_cases h1 : some d.shape_type ≠ e.shape_type
  · rw [if_pos h1]
  · rw [if_neg h1, if_pos]
    rcases h with h | h | h
    · exact absurd h h1
    · refine Or.inr ?_
      rw [VisualMarker.pixels_to_grid, List.length_map]
      exact h
    · exact Or.inl h

/-- Witness for C4 at a concrete shape-type mismatch. -/
theorem C4_incomparable_sentinel_witness :
    grade_geometric_accuracy ⟨50, 1/10⟩
        ⟨"triangle", [(0, 0), (1, 0), (0, 1)], 1, (0, 0, 1, 1)⟩
        ⟨some "rectangle", [(0, 0), (1, 0), (0, 1)], ⟨none, none, none⟩⟩ =
      { scale_factor := 0, rotation_angle := 0, position_error := none,
        overall_accuracy := 0 } :=
  C4_incomparable_sentinel ⟨50, 1/10⟩
    ⟨"triangle", [(0, 0), (1, 0), (0, 1)], 1, (0, 0, 1, 1)⟩
    ⟨some "rectangle", [(0, 0), (1, 0), (0, 1)], ⟨none, none, none⟩⟩
    (Or.inl (by simp))

/-- The mean of a list of equal rationals is that rational. -/
theorem mean_const (l : List ℚ) (c : ℚ) (hne : l ≠ []) (h : ∀ x ∈ l, x = c) :
    l.sum / (l.length : ℚ) = c := by
  have hlen : (l.length : ℚ) ≠ 0 := by
    exact_mod_cast Nat.pos_iff_ne_zero.mp (List.length_pos.mpr hne)
  rw [List.sum_eq_card_nsmul l c h, nsmul_eq_mul, mul_div_cancel_left₀ c hlen]

/-- The population variance of a constant list is zero. -/
theorem popVariance_const (l : List ℚ) (c : ℚ) (hne : l ≠ []) (h : ∀ x ∈ l, x = c) :
    popVariance l = 0 := by
  unfold popVariance
  have hz : ∀ x ∈ l.map (fun s => (s - l.sum / (l.length : ℚ)) ^ 2), x = 0 := by
    intro x hx
    obtain ⟨s, hs, rfl⟩ := List.mem_map.mp hx
    rw [h s hs, mean_const l c hne h]
    ring
  rw [List.sum_eq_zero hz, zero_div]

/-- `calculate_model_agreement_confidence` in terms of the claim-side
population variance, whenever at least one entry is valid. -/
theorem agreement_formula (l : List MarkingResult) (hvp : validPercentages l ≠ []) :
    calculate_model_agreement_confidence l =
      min 1 (max 0 (1 - 2 * Real.sqrt ((popVariance (validPercentages l) : ℝ)))) := by
  have hle : l.isEmpty = false := by
    cases l
    · simp [validPercentages] at hvp
    · rfl
  have hpe : ((l.filter (fun r => 0 < r.total_marks)).map
      (fun r => r.marks_awarded / r.total_marks)).isEmpty = false := by
    rcases hp : ((l.filter (fun r => 0 < r.total_marks)).map
        (fun r => r.marks_awarded / r.total_marks)).isEmpty with _ | _
    · exact hp
    · exact absurd (List.isEmpty_iff.mp hp) hvp
  unfold calculate_model_agreement_confidence
  rw [if_neg (by simp [hle]), if_neg (by simp [hpe])]
  unfold popVariance validPercentages
  dsimp only
  congr 2
  ring

/-- C5: the model-agreement confidence is `0` on an empty or fully-invalid
result list, `clamp(1 - 2σ, 0, 1)` with `σ` the population standard
deviation of the valid entries' percentages, and `1` for a non-empty list
of valid entries that all have the same percentage. -/
theorem C5_agreement_spec :
    (calculate_model_agreement_confidence [] = 0) ∧
    (∀ l : List MarkingResult, (∀ r ∈ l, r.total_marks ≤ 0) →
      calculate_model_agreement_confidence l = 0) ∧
    (∀ l : List MarkingResult, l ≠ [] → (∀ r ∈ l, 0 < r.total_marks) →
      (∀ r ∈ l, ∀ s ∈ l,
        r.marks_awarded / r.total_marks = s.marks_awarded / s.total_marks) →
      calculate_model_agreement_confidence l = 1) ∧
    (∀ l : List MarkingResult, validPercentages l ≠ [] →
      calculate_model_agreement_confidence l =
        min 1 (max 0 (1 - 2 * Real.sqrt ((popVariance (validPercentages l) : ℝ))))) := by
  refine ⟨rfl, ?_, ?_, agreement_formula⟩
  · intro l hinv
    match l with
    | [] => rfl
    | a :: t =>
      have hfil : (a :: t).filter (fun r => 0 < r.total_marks) = [] := by
        rw [List.filter_eq_nil_iff]
        intro r hr
        simpa using not_lt.mpr (hinv r hr)
      unfold calculate_model_agreement_confidence
      rw [if_neg (by simp), if_pos (by simp [hfil])]
  · intro l hne hval hconst
    have hfil : l.filter (fun r => 0 < r.total_marks) = l :=
      List.filter_eq_self.mpr (fun r hr => by simpa using hval r hr)
    have hvp : validPercentages l ≠ [] := by
      unfold validPercentages
      rw [hfil]
      simpa using hne
    obtain ⟨a, t, rfl⟩ : ∃ a t, l = a :: t := by
      cases l
      · exact absurd rfl hne
      · exact ⟨_, _, rfl⟩
    have hmem : ∀ x ∈ validPercentages (a :: t),
        x = a.marks_awarded / a.total_marks := by
      intro x hx
      unfold validPercentages at hx
      rw [hfil] at hx
      obtain ⟨r, hr, rfl⟩ := List.mem_map.mp hx
      exact hconst r hr a (List.mem_cons_self a t)
    rw [agreement_formula _ hvp,
      popVariance_const _ (a.marks_awarded / a.total_marks) hvp hmem]
    norm_num

/-- Witness for C5: five identical full-mark runs give confidence `1`. -/
theorem C5_agreement_spec_witness :
    calculate_model_agreement_confidence [⟨1, 1⟩, ⟨1, 1⟩, ⟨1, 1⟩, ⟨1, 1⟩, ⟨1, 1⟩] = 1 :=
  C5_agreement_spec.2.2.1 [⟨1, 1⟩, ⟨1, 1⟩, ⟨1, 1⟩, ⟨1, 1⟩, ⟨1, 1⟩]
    (by simp) (by intro r hr; simp at hr; rw [hr]; norm_num)
    (by intro r hr s hs; simp at hr hs; rw [hr, hs])

/-- C6 counterexample: for the negative-sum weight vector `[-1, 0]` the
code falls back to equal weights and returns `1/2`, while the claim's
renormalization (`sum = -1 ≠ 0`) would give `clamp(1) = 1`. -/
theorem C6_counterexample :
    combine_confidence_scores [1, 0] (some [-1, 0]) = 1/2 ∧
    combineSpecC6 [1, 0] (some [-1, 0]) = 1 := by
  constructor
  · simp [combine_confidence_scores]
    norm_num
  · simp [combineSpecC6]

/-- C6 amended: the combiner returns `0` on an empty score list, treats an
omitted weight list as equal weights, renormalizes the weights when their
sum is positive, and falls back to equal weights when the weight sum is
zero *or negative*; the two selection identities hold. -/
theorem C6_combine_spec :
    (∀ w, combine_confidence_scores [] w = 0) ∧
    (∀ x : ℚ, combine_confidence_scores [x] none = min 1 (max 0 x)) ∧
    (∀ a b : ℚ, combine_confidence_scores [a, b] (some [1, 0]) = min 1 (max 0 a)) ∧
    (∀ (scores ws : List ℚ), 0 < ws.sum →
      combine_confidence_scores scores (some ws) =
        min 1 (max 0 (((scores.zip (ws.map (fun w => w / ws.sum))).map
          (fun p => p.1 * p.2)).sum))) ∧
    (∀ (scores ws : List ℚ), ws.sum ≤ 0 →
      combine_confidence_scores scores (some ws) =
        combine_confidence_scores scores
          (some (List.replicate ws.length (1 / (ws.length : ℚ))))) ∧
    (∀ scores : List ℚ, combine_confidence_scores scores none =
      combine_confidence_scores scores
        (some (List.replicate scores.length (1 / (scores.length : ℚ))))) := by
  refine ⟨fun w => rfl, ?_, ?_, ?_, ?_, fun scores => rfl⟩
  · intro x
    simp [combine_confidence_scores]
  · intro a b
    simp [combine_confidence_scores]
  · intro scores ws h
    by_cases hs : scores.isEmpty
    · rw [List.isEmpty_iff.mp hs]
      simp [combine_confidence_scores]
    · simp only [combine_confidence_scores]
      rw [if_neg (by simp [hs])]
      rw [if_pos h]
  · intro scores ws h
    by_cases hs : scores.isEmpty
    · rw [List.isEmpty_iff.mp hs]
      rfl
    · simp only [combine_confidence_scores]
      rw [if_neg (by simp [hs])]
      rw [if_neg (not_lt.mpr h)]
      rcases Nat.eq_zero_or_pos ws.length with h0 | hpos
      · rw [h0]
        simp
      · have hsum : (List.replicate ws.length (1 / (ws.length : ℚ))).sum = 1 := by
          rw [List.sum_replicate, nsmul_eq_mul]
          have hnz : ((ws.length : ℚ)) ≠ 0 := by
            exact_mod_cast Nat.pos_iff_ne_zero.mp hpos
          field_simp
        have hs' : scores ≠ [] := by simpa [List.isEmpty_iff] using hs
        rw [hsum, if_pos one_pos]
        simp
        rw [if_neg hs']

/-- Witness for the amended C6 on a positive-sum weight vector. -/
theorem C6_combine_spec_witness :
    combine_confidence_scores [1/2] (some [2]) =
      min 1 (max 0 ((([(1 : ℚ)/2].zip ([2].map (fun w => w / List.sum [(2 : ℚ)]))).map
        (fun p => p.1 * p.2)).sum)) :=
  C6_combine_spec.2.2.2.1 [1/2] [2] (by norm_num)

/-- C7: the claim says an answer with zero words yields a ratio of `0` and
a normal return; the code instead evaluates `expected_length /
student_length` with a zero divisor and raises `ZeroDivisionError`.  This
evaluates the code at the failing input (`student_answer = ""`,
`expected_answer = "answer"`). -/
theorem C7_zero_words_raises :
    calculate_embedding_confidence "" "answer" (1/2) = .error .zeroDivisionError := rfl

/-- Distance between two points on a horizontal line. -/
theorem pointDist_horizontal (a b y : ℝ) : pointDist (a, y) (b, y) = |a - b| := by
  unfold pointDist
  rw [sub_self y]
  norm_num [Real.sqrt_sq_eq_abs]

/-- The mean of a non-empty list of positive reals is positive. -/
theorem listMean_pos (l : List ℝ) (hne : l ≠ []) (h : ∀ x ∈ l, 0 < x) :
    0 < listMean l := by
  unfold listMean
  apply div_pos (List.sum_pos l h hne)
  exact_mod_cast List.length_pos.mpr hne

/-- C8 amended: for comparable shapes (matching type, equal vertex counts
of at least two, some expected edge of positive length) the scale factor
is the *ratio of the means* of the positive edge lengths — the detected
and expected edge lists are each filtered and averaged independently, not
paired edge by edge. -/
theorem C8_scale_is_ratio_of_means (m : VisualMarker) (d : DetectedShape)
    (e : ExpectedShape)
    (htype : some d.shape_type = e.shape_type)
    (hlen : (m.pixels_to_grid d.vertices).length = e.vertices.length)
    (h2 : 2 ≤ e.vertices.length)
    (hpos : ∃ x ∈ consecDists e.vertices, 0 < x) :
    (grade_geometric_accuracy m d e).scale_factor =
      ratioOfMeanEdges (m.pixels_to_grid d.vertices) e.vertices := by
  have hne : e.vertices ≠ [] := by
    intro hnil
    rw [hnil] at h2
    simp at h2
  unfold grade_geometric_accuracy
  rw [if_neg (by simp [htype]), if_neg (by push_neg; exact ⟨hne, hlen⟩)]
  dsimp only
  unfold _calculate_scale_factor
  rw [if_neg (by push_neg; omega)]
  dsimp only
  obtain ⟨x, hx, hxp⟩ := hpos
  rw [if_pos ⟨List.ne_nil_of_mem hx, x, hx, hxp⟩]
  have havg : 0 < listMean ((consecDists e.vertices).filter (fun t => 0 < t)) := by
    apply listMean_pos
    · exact List.ne_nil_of_mem (List.mem_filter.mpr ⟨hx, by simpa using hxp⟩)
    · intro t ht
      simpa using (List.mem_filter.mp ht).2
  rw [if_pos havg]
  rfl

/-- C8 counterexample: collinear triangles with detected edges `[2, 2]`
and expected edges `[1, 2]` (grid spacing 1).  The code returns the ratio
of means `2 / (3/2) = 4/3`; the claim's mean of per-edge ratios is
`(2/1 + 2/2) / 2 = 3/2`. -/
theorem C8_counterexample :
    (grade_geometric_accuracy ⟨1, 1/10⟩
        ⟨"triangle", [(0, 0), (2, 0), (4, 0)], 1, (0, 0, 4, 0)⟩
        ⟨some "triangle", [(0, 0), (1, 0), (3, 0)], ⟨none, none, none⟩⟩).scale_factor = 4/3 ∧
    meanEdgeRatios
      (VisualMarker.pixels_to_grid ⟨1, 1/10⟩ [(0, 0), (2, 0), (4, 0)])
      [(0, 0), (1, 0), (3, 0)] = 3/2 := by
  have hgrid : VisualMarker.pixels_to_grid ⟨1, 1/10⟩
      [((0 : ℝ), (0 : ℝ)), (2, 0), (4, 0)] = [(0, 0), (2, 0), (4, 0)] := by
    unfold VisualMarker.pixels_to_grid
    norm_num
  have hd1 : pointDist ((0 : ℝ), (0 : ℝ)) (2, 0) = 2 := by
    rw [pointDist_horizontal]
    norm_num
  have hd2 : pointDist ((2 : ℝ), (0 : ℝ)) (4, 0) = 2 := by
    rw [pointDist_horizontal]
    norm_num
  have he1 : pointDist ((0 : ℝ), (0 : ℝ)) (1, 0) = 1 := by
    rw [pointDist_horizontal]
    norm_num
  have he2 : pointDist ((1 : ℝ), (0 : ℝ)) (3, 0) = 2 := by
    rw [pointDist_horizontal]
    norm_num
  have hcd : consecDists [((0 : ℝ), (0 : ℝ)), (2, 0), (4, 0)] = [2, 2] := by
    show [pointDist ((0 : ℝ), (0 : ℝ)) (2, 0), pointDist ((2 : ℝ), (0 : ℝ)) (4, 0)] = [2, 2]
    rw [hd1, hd2]
  have hce : consecDists [((0 : ℝ), (0 : ℝ)), (1, 0), (3, 0)] = [1, 2] := by
    show [pointDist ((0 : ℝ), (0 : ℝ)) (1, 0), pointDist ((1 : ℝ), (0 : ℝ)) (3, 0)] = [1, 2]
    rw [he1, he2]
  have hfd : ([2, 2] : List ℝ).filter (fun t => decide (0 < t)) = [2, 2] := by
    rw [List.filter_eq_self]
    intro t ht
    simp only [List.mem_cons, List.not_mem_nil, or_false] at ht
    rcases ht with rfl | rfl <;> norm_num
  have hfe : ([1, 2] : List ℝ).filter (fun t => decide (0 < t)) = [1, 2] := by
    rw [List.filter_eq_self]
    intro t ht
    simp only [List.mem_cons, List.not_mem_nil, or_false] at ht
    rcases ht with rfl | rfl <;> norm_num
  have hmd : listMean [2, 2] = 2 := by
    unfold listMean
    norm_num
  have hme : listMean [1, 2] = 3/2 := by
    unfold listMean
    norm_num
  constructor
  · unfold grade_geometric_accuracy
    have hg : ¬(([((0 : ℝ), (0 : ℝ)), (1, 0), (3, 0)] : List (ℝ × ℝ)) = [] ∨
        (VisualMarker.pixels_to_grid ⟨1, 1/10⟩
          [((0 : ℝ), (0 : ℝ)), (2, 0), (4, 0)]).length ≠
          ([((0 : ℝ), (0 : ℝ)), (1, 0), (3, 0)] : List (ℝ × ℝ)).length) := by
      push_neg
      refine ⟨by simp, ?_⟩
      rw [hgrid]
      simp
    rw [if_neg (by simp), if_neg hg]
    dsimp only
    rw [hgrid]
    unfold _calculate_scale_factor
    rw [if_neg (by norm_num)]
    dsimp only
    rw [if_pos (by rw [hce]; exact ⟨by simp, 1, by simp, by norm_num⟩)]
    rw [hcd, hce, hfd, hfe, hmd, hme]
    rw [if_pos (by norm_num)]
    norm_num
  · unfold meanEdgeRatios
    rw [hgrid, hcd, hce]
    show listMean ((([((2 : ℝ), (1 : ℝ)), (2, 2)]).filter
        (fun p => decide (0 < p.1 ∧ 0 < p.2))).map (fun p => p.1 / p.2)) = 3/2
    have hfz : ([((2 : ℝ), (1 : ℝ)), (2, 2)]).filter
        (fun p => decide (0 < p.1 ∧ 0 < p.2)) = [(2, 1), (2, 2)] := by
      rw [List.filter_eq_self]
      intro p hp
      simp only [List.mem_cons, List.not_mem_nil, or_false] at hp
      rcases hp with rfl | rfl <;> norm_num
    rw [hfz]
    show listMean [(2 : ℝ)/1, 2/2] = 3/2
    norm_num [listMean, List.sum_cons, List.sum_nil]

/-- Witness for the amended C8 at the counterexample's shapes. -/
theorem C8_scale_is_ratio_of_means_witness :
    (grade_geometric_accuracy ⟨1, 1/10⟩
        ⟨"triangle", [(0, 0), (2, 0), (4, 0)], 1, (0, 0, 4, 0)⟩
        ⟨some "triangle", [(0, 0), (1, 0), (3, 0)], ⟨none, none, none⟩⟩).scale_factor =
      ratioOfMeanEdges
        (VisualMarker.pixels_to_grid ⟨1, 1/10⟩ [(0, 0), (2, 0), (4, 0)])
        [(0, 0), (1, 0), (3, 0)] := by
  apply C8_scale_is_ratio_of_means
  · rfl
  · norm_num [VisualMarker.pixels_to_grid]
  · norm_num
  · refine ⟨pointDist ((0 : ℝ), (0 : ℝ)) (1, 0), ?_, ?_⟩
    · unfold consecDists consecPairs
      simp
    · rw [pointDist_horizontal]
      norm_num

/-- C10: `calculate_confidence_from_criteria` is independent of its
`llm_feedback` argument — the feedback is lower-cased inside
`_check_criterion_match` but never used in any computation. -/
theorem C10_feedback_independent (a : String) (scheme : List Criterion)
    (f1 f2 : String) :
    calculate_confidence_from_criteria a scheme f1 =
      calculate_confidence_from_criteria a scheme f2 := rfl

end MarkIt
